import Mathlib

/-!
Shallow embedding of the study-plan-generator service (src/app.js) and proofs
about its `POST /generate-plan` handler, its provider fallback loop, and its
template fallback generator.  JS strings are modelled as Lean `String`
(lists of characters), JS numbers arising here (week counts) as `Nat` with
exact arithmetic, fallible remote calls as explicit outcome values, and the
Express response / Firestore write as explicit records and traces.
-/

namespace StudyPlanGen

set_option maxRecDepth 65536

/-- Whitespace test used by the model of JavaScript `String.prototype.trim`.
Covers the ASCII whitespace characters plus NBSP; the remaining exotic
Unicode space separators of the ECMAScript WhiteSpace production do not
occur in any string this program manipulates. -/
def isSpaceChar (c : Char) : Bool :=
  c = ' ' || c = '\t' || c = '\n' || c = '\r' || c = '\x0b' || c = '\x0c' || c = '\xa0'

/-- Removes the maximal trailing run of whitespace characters. -/
def dropTrailing : List Char → List Char
  | [] => []
  | c :: cs =>
    let r := dropTrailing cs
    if r.isEmpty then (if isSpaceChar c then [] else [c]) else c :: r

/-- Removes the maximal leading and trailing whitespace runs (JS `trim`). -/
def trimList (l : List Char) : List Char :=
  dropTrailing (l.dropWhile isSpaceChar)

/-- Model of JavaScript `s.trim()`. -/
def jsTrim (s : String) : String :=
  String.mk (trimList s.data)

/-- Splits `l` at the first occurrence of `pat`: returns the part before the
occurrence and the part after it, or `none` when `pat` does not occur. -/
def splitAtSubstr (pat : List Char) : List Char → Option (List Char × List Char)
  | [] => if pat.isEmpty then some ([], []) else none
  | c :: cs =>
    if pat.isPrefixOf (c :: cs) then some ([], (c :: cs).drop pat.length)
    else
      match splitAtSubstr pat cs with
      | some (pre, post) => some (c :: pre, post)
      | none => none

/-- Model of JavaScript `s.includes(pat)`. -/
def containsSub (s pat : String) : Bool :=
  (splitAtSubstr pat.data s.data).isSome

/-- Model of JavaScript `s.replace(pat, "")` with a string pattern: removes
the first occurrence of `pat` (and only that one). -/
def replaceFirst (s pat : String) : String :=
  match splitAtSubstr pat.data s.data with
  | some (pre, post) => String.mk (pre ++ post)
  | none => s

/-- Echo-removal step of the handler (src/app.js lines 192-194): when the
generated text contains the original prompt, the prompt occurrence is
removed and the result trimmed; otherwise the text is kept as is. -/
def stripEcho (prompt generatedText : String) : String :=
  if containsSub generatedText prompt then jsTrim (replaceFirst generatedText prompt)
  else generatedText

/-- Maximal leading run of ASCII digits. -/
def takeDigits : List Char → List Char
  | [] => []
  | c :: cs => if c.isDigit then c :: takeDigits cs else []

/-- First maximal run of ASCII digits in a character list, the model of
`duration.match(/\d+/)` (`none` models a `null` match result). -/
def firstDigitRun : List Char → Option (List Char)
  | [] => none
  | c :: cs => if c.isDigit then some (c :: takeDigits cs) else firstDigitRun cs

/-- Decimal value of a digit string, the model of `parseInt` applied to the
matched digit run. -/
def digitsToNat (ds : List Char) : Nat :=
  ds.foldl (fun a c => 10 * a + (c.toNat - 48)) 0

/-- Model of the JavaScript expression `n || d` for a non-negative integer
`n` (`0` is falsy, so it also selects the default). -/
def jsOrInt (n d : Nat) : Nat :=
  if n = 0 then d else n

/-- Model of `parseInt(duration.match(/\d+/)) || 4` (src/app.js line 31):
a failed match gives `parseInt(null) = NaN`, which is falsy, and a parsed
`0` is falsy as well, so both default to 4. -/
def parseDurationWeeks (duration : String) : Nat :=
  match firstDigitRun duration.data with
  | none => 4
  | some ds => jsOrInt (digitsToNat ds) 4

/-- Modelled from the claim C6 words only, for comparison with
`parseDurationWeeks`: the week count is the first integer found in the
duration string, defaulting to 4 exactly when no integer is found. -/
def claimedDurationWeeks (duration : String) : Nat :=
  match firstDigitRun duration.data with
  | none => 4
  | some ds => digitsToNat ds

/-- Model of `Math.ceil(w * 0.7)` for a natural week count `w`: the exact
rational ceiling of `7w/10`, which agrees with the IEEE double computation
for every week count this program can realistically parse. -/
def ceilSevenTenths (w : Nat) : Nat :=
  (7 * w + 9) / 10

/-- The template fallback generator `generateFallbackPlan` of src/app.js
lines 30-95, reproduced chunk by chunk from the template literal.  The
unused local `weeksText` of line 32 is omitted because the source never
interpolates it. -/
def generateFallbackPlan (subject level duration goals : String) : String :=
  let durationWeeks := parseDurationWeeks duration
  let phase1Span : String := if durationWeeks > 2 then "-2" else ""
  let phase2Label : String :=
    if durationWeeks > 2 then "3-" ++ toString (ceilSevenTenths durationWeeks) else "2"
  let week3Line : String :=
    if durationWeeks > 2 then "Week 3: Apply knowledge to practical scenarios\n" else ""
  let week4Line : String :=
    if durationWeeks > 3 then "Week 4: Integrate advanced concepts\n" else ""
  "Study Plan for " ++ subject ++ " (" ++ level ++ " Level)" ++
  "\nDuration: " ++ duration ++
  "\nGoals: " ++ goals ++
  "\n\n=== STUDY PLAN OVERVIEW ===\n\nPhase 1: Foundation (Week 1" ++ phase1Span ++
  ")\n- Review fundamental concepts and terminology\n- Gather study materials and resources\n- Establish daily study routine (1-2 hours)\n- Complete basic exercises and assessments\n\n" ++
  "Phase 2: Core Learning (Week " ++ phase2Label ++ ")" ++
  "\n- Deep dive into main topics and concepts\n- Practice problem-solving techniques\n- Create summary notes and mind maps\n- Regular self-assessment and progress tracking\n\n" ++
  "Phase 3: Advanced Application (Week " ++ toString (ceilSevenTenths durationWeeks + 1) ++
  "-" ++ toString (durationWeeks - 1) ++ ")" ++
  "\n- Explore complex topics and real-world applications\n- Work on challenging problems and case studies\n- Connect concepts across different areas\n- Prepare for practical implementation\n\nPhase 4: Review & Mastery (Final Week)\n- Comprehensive review of all materials\n- Practice tests and mock examinations\n- Identify and address knowledge gaps\n- Final preparation and confidence building\n\n=== DAILY STUDY STRUCTURE ===\n\nMorning Session (30-45 minutes):\n- Review previous day\x27s material\n- Preview new concepts for the day\n\nMain Study Session (60-90 minutes):\n- Focus on new topic learning\n- Complete practice exercises\n- Take detailed notes\n\nEvening Review (15-30 minutes):\n- Summarize key learnings\n- Plan next day\x27s study goals\n- Update progress tracker\n\n=== WEEKLY MILESTONES ===\n\nWeek 1: Master foundational concepts\nWeek 2: Complete core topic modules\n" ++
  week3Line ++ week4Line ++
  "Final Week: Achieve mastery and meet stated goals\n\n=== STUDY TIPS ===\n\n- Use active learning techniques (summarizing, teaching others)\n- Take regular breaks using the Pomodoro technique\n- Create a distraction-free study environment\n- Join study groups or find accountability partners\n- Regularly assess progress and adjust plan as needed\n\nNote: This is a template plan generated when AI services are unavailable. For a more personalized and detailed study plan, please try again later when our AI service is restored."

/-- The prompt built by the handler from the four request fields
(src/app.js lines 139-155); it is the same for every provider attempt. -/
def buildPrompt (subject level duration goals : String) : String :=
  "Create a comprehensive, personalized study plan with the following specifications:\n\nSubject: " ++
  subject ++ "\nAcademic Level: " ++ level ++ "\nStudy Duration: " ++ duration ++
  "\nLearning Goals: " ++ goals ++
  "\n\nPlease structure the response with:\n1. Study plan overview with phases\n2. Weekly breakdown with specific topics\n3. Daily study schedule recommendations\n4. Key milestones and checkpoints\n5. Assessment methods and progress tracking\n6. Recommended resources and materials\n7. Tips for effective learning\n\nMake the plan detailed, practical, and tailored to the specified level and duration."

/-- The fixed priority list of provider model identifiers
(src/app.js lines 158-164). -/
def models : List String :=
  ["mistralai/Mistral-7B-Instruct-v0.3",
   "microsoft/DialoGPT-medium",
   "google/flan-t5-large",
   "facebook/blenderbot-400M-distill",
   "bigscience/bloom-560m"]

/-- Outcome of one remote call `inference.textGeneration({model, ...})`:
either the promise rejects (`raise`), or it resolves to a response whose
`generated_text` field, when truthy, is `respond (some s)`; a falsy
response object or a missing `generated_text` field is `respond none`,
and an empty `generated_text` string, being falsy in JS, is modelled by
`respond (some "")` and handled by the same truthiness test the source
performs. -/
inductive ProviderCall where
  | raise
  | respond (generated_text : Option String)
deriving DecidableEq

/-- Outcome of the single awaited `db.collection(..).add(..)` write: the
returned document id, or a rejected promise. -/
inductive StoreBehavior where
  | ok (id : String)
  | err
deriving DecidableEq

/-- Request body of `POST /generate-plan`: each of the four destructured
fields is either absent (`none`) or a string.  (A non-string JSON value in
a field is outside this model; the source only ever treats the fields as
strings.) -/
structure ReqBody where
  subject : Option String
  level : Option String
  duration : Option String
  goals : Option String
deriving DecidableEq

/-- JSON response sent by the handler.  `status` is the HTTP status code
(200 unless `res.status` is called); each optional field is present in the
serialized body exactly when it is `some`. -/
structure GenResponse where
  status : Nat
  success : Option Bool := none
  error : Option String := none
  plan : Option String := none
  planId : Option String := none
  modelUsed : Option String := none
  isAiGenerated : Option Bool := none
  message : Option String := none
  warning : Option String := none
deriving DecidableEq

/-- Document passed to `db.collection("studyPlans").add({...})`; the
server-assigned `createdAt` timestamp carries no information decidable by
this program and is omitted. -/
structure StoredPlanWrite where
  subject : String
  level : String
  duration : String
  goals : String
  plan : String
  modelUsed : String
  isAiGenerated : Bool
deriving DecidableEq

/-- Observable outcome of one handler run: the HTTP response, the ordered
trace of provider identifiers whose remote call was started, and the
ordered trace of store write attempts. -/
structure GenOutcome where
  resp : GenResponse
  called : List String
  writes : List StoredPlanWrite
deriving DecidableEq

/-- Truthiness test `!field` applied by the validation line 133 to a
destructured body field: missing or empty string is falsy. -/
def isFalsy : Option String → Bool
  | none => true
  | some s => s = ""

/-- A body passes the input validation when all four fields are truthy. -/
def validBody (b : ReqBody) : Bool :=
  !(isFalsy b.subject || isFalsy b.level || isFalsy b.duration || isFalsy b.goals)

/-- Acceptance test the loop body applies to one provider's call outcome:
the call must resolve, carry a truthy `generated_text`, and the text must
still have length at least 100 after echo-stripping. -/
def accepts (prompt : String) (p : String × ProviderCall) : Bool :=
  match p.2 with
  | ProviderCall.raise => false
  | ProviderCall.respond none => false
  | ProviderCall.respond (some s) =>
    if s = "" then false
    else if (stripEcho prompt s).length < 100 then false
    else true

/-- The provider loop of src/app.js lines 170-244: tries each provider in
order, returns the first accepted `(model, strippedText)` pair if any,
together with the trace of providers whose call was started.  A raised
error, a falsy response/`generated_text`, or a too-short stripped text all
continue with the next provider. -/
def tryModels (prompt : String) : List (String × ProviderCall) → Option (String × String) × List String
  | [] => (none, [])
  | (model, call) :: rest =>
    match call with
    | ProviderCall.raise =>
      let r := tryModels prompt rest
      (r.1, model :: r.2)
    | ProviderCall.respond none =>
      let r := tryModels prompt rest
      (r.1, model :: r.2)
    | ProviderCall.respond (some s) =>
      if s = "" then
        let r := tryModels prompt rest
        (r.1, model :: r.2)
      else
        let t := stripEcho prompt s
        if t.length < 100 then
          let r := tryModels prompt rest
          (r.1, model :: r.2)
        else
          (some (model, t), [model])

/-- The handler body after validation has passed (src/app.js lines
139-282): build the prompt, run the provider loop, and produce the
response and the single store write of the chosen plan, with a store
failure downgraded to a warning. -/
def generateCore (subject level duration goals : String)
    (providers : List (String × ProviderCall)) (store : StoreBehavior) : GenOutcome :=
  let prompt := buildPrompt subject level duration goals
  match tryModels prompt providers with
  | (some (model, generatedText), called) =>
    let write : StoredPlanWrite :=
      ⟨subject, level, duration, goals, generatedText, model, true⟩
    match store with
    | StoreBehavior.ok id =>
      { resp := { status := 200, success := some true, plan := some generatedText,
                  planId := some id, modelUsed := some model, isAiGenerated := some true },
        called := called, writes := [write] }
    | StoreBehavior.err =>
      { resp := { status := 200, success := some true, plan := some generatedText,
                  modelUsed := some model, isAiGenerated := some true,
                  warning := some "Plan generated successfully but not saved to database" },
        called := called, writes := [write] }
  | (none, called) =>
    let fallbackPlan := generateFallbackPlan subject level duration goals
    let write : StoredPlanWrite :=
      ⟨subject, level, duration, goals, fallbackPlan, "fallback", false⟩
    match store with
    | StoreBehavior.ok id =>
      { resp := { status := 200, success := some true, plan := some fallbackPlan,
                  planId := some id, modelUsed := some "fallback", isAiGenerated := some false,
                  message := some "AI services are currently unavailable. A template study plan has been generated for you." },
        called := called, writes := [write] }
    | StoreBehavior.err =>
      { resp := { status := 200, success := some true, plan := some fallbackPlan,
                  modelUsed := some "fallback", isAiGenerated := some false,
                  message := some "AI services are currently unavailable. A template study plan has been generated for you.",
                  warning := some "Plan not saved to database due to connection issues" },
        called := called, writes := [write] }

/-- The full `POST /generate-plan` handler over an arbitrary ordered
provider list: validation first (src/app.js lines 130-137), then the
generation core. -/
def generatePlanWith (body : ReqBody) (providers : List (String × ProviderCall))
    (store : StoreBehavior) : GenOutcome :=
  if isFalsy body.subject || isFalsy body.level || isFalsy body.duration || isFalsy body.goals then
    { resp := { status := 400,
                error := some "Missing required fields: subject, level, duration, and goals are all required" },
      called := [], writes := [] }
  else
    generateCore (body.subject.getD "") (body.level.getD "") (body.duration.getD "")
      (body.goals.getD "") providers store

/-- The handler as deployed: the provider list is the fixed `models`
priority list, and `env` gives each remote model's behaviour for this
request. -/
def generatePlan (body : ReqBody) (env : String → ProviderCall)
    (store : StoreBehavior) : GenOutcome :=
  generatePlanWith body (models.map fun m => (m, env m)) store

/-- Concrete valid request body used by witnesses. -/
def bodyEx : ReqBody :=
  ⟨some "Math", some "Beginner", some "6 weeks", some "Practice algebra"⟩

/-- Concrete invalid request body (missing subject) used by witnesses. -/
def bodyMissingEx : ReqBody :=
  ⟨none, some "Beginner", some "6 weeks", some "Practice algebra"⟩

/-- Provider environment in which every remote call raises. -/
def envFailEx : String → ProviderCall := fun _ => ProviderCall.raise

/-- A 120-character provider output that survives the length threshold. -/
def longTextEx : String := String.mk (List.replicate 120 'y')

example : parseDurationWeeks "6 weeks" = 6 := by decide
example : parseDurationWeeks "1 week" = 1 := by decide
example : parseDurationWeeks "no number here" = 4 := by decide
example : parseDurationWeeks "0 weeks" = 4 := by decide
example : jsTrim "  a b \n" = "a b" := by decide
example : replaceFirst "xxabyy" "ab" = "xxyy" := by decide
example : containsSub "xxabyy" "ab" = true := by decide
example : containsSub "xxayy" "ab" = false := by decide
example : stripEcho "ab" ("ab" ++ " tail ") = "tail" := by decide

/-! Helper lemmas about the string utilities. -/

theorem strExt {a b : String} (h : a.data = b.data) : a = b := by
  cases a with
  | mk x => cases b with
    | mk y => exact congrArg String.mk h

theorem isPrefixOfAppend (pat rest : List Char) : pat.isPrefixOf (pat ++ rest) = true := by
  induction pat with
  | nil => simp [List.isPrefixOf]
  | cons p ps ih => simp [List.isPrefixOf, ih]

theorem splitAtSubstr_append_self (pat rest : List Char) :
    splitAtSubstr pat (pat ++ rest) = some ([], rest) := by
  cases pat with
  | nil =>
    cases rest with
    | nil => rfl
    | cons c cs => simp [splitAtSubstr, List.isPrefixOf]
  | cons p ps =>
    rw [List.cons_append, splitAtSubstr]
    rw [← List.cons_append, isPrefixOfAppend]
    simp [List.drop_left]

theorem replaceFirst_append_self (p t : String) : replaceFirst (p ++ t) p = t := by
  unfold replaceFirst
  rw [String.data_append, splitAtSubstr_append_self]
  exact strExt rfl

theorem containsSub_append_self (p t : String) : containsSub (p ++ t) p = true := by
  unfold containsSub
  rw [String.data_append, splitAtSubstr_append_self]
  rfl

theorem stripEcho_append_self (p t : String) : stripEcho p (p ++ t) = jsTrim t := by
  unfold stripEcho
  rw [containsSub_append_self, replaceFirst_append_self]
  rfl

theorem head_dropWhile_not (p : Char → Bool) (l : List Char) :
    ∀ c, (l.dropWhile p).head? = some c → p c = false := by
  induction l with
  | nil => intro c h; simp [List.dropWhile] at h
  | cons a as ih =>
    intro c h
    by_cases ha : p a = true
    · rw [List.dropWhile_cons_of_pos ha] at h
      exact ih c h
    · rw [List.dropWhile_cons_of_neg ha] at h
      simp at h
      subst h
      simpa using ha

theorem dropTrailing_head (l : List Char) :
    ∀ c, (dropTrailing l).head? = some c → l.head? = some c := by
  induction l with
  | nil => intro c h; simp [dropTrailing] at h
  | cons a as _ =>
    intro c h
    rw [dropTrailing] at h
    by_cases hr : (dropTrailing as).isEmpty = true
    · rw [if_pos hr] at h
      by_cases hsp : isSpaceChar a = true
      · rw [if_pos hsp] at h; simp at h
      · rw [if_neg hsp] at h
        simp at h
        simp [h]
    · rw [if_neg hr] at h
      simp at h
      simp [h]

theorem dropTrailing_getLast (l : List Char) :
    ∀ c, (dropTrailing l).getLast? = some c → isSpaceChar c = false := by
  induction l with
  | nil => intro c h; simp [dropTrailing] at h
  | cons a as ih =>
    intro c h
    rw [dropTrailing] at h
    by_cases hr : (dropTrailing as).isEmpty = true
    · rw [if_pos hr] at h
      by_cases hsp : isSpaceChar a = true
      · rw [if_pos hsp] at h; simp at h
      · rw [if_neg hsp] at h
        simp at h
        rw [← h]
        simpa using hsp
    · rw [if_neg hr] at h
      rcases hd : dropTrailing as with _ | ⟨r, rs⟩
      · rw [hd] at hr; simp [List.isEmpty] at hr
      · rw [hd] at h
        rw [List.getLast?_cons_cons] at h
        exact ih c (hd ▸ h)

theorem trimList_head (l : List Char) :
    ∀ c, (trimList l).head? = some c → isSpaceChar c = false := by
  intro c h
  exact head_dropWhile_not isSpaceChar l c (dropTrailing_head _ c h)

theorem trimList_getLast (l : List Char) :
    ∀ c, (trimList l).getLast? = some c → isSpaceChar c = false :=
  fun c h => dropTrailing_getLast _ c h

/-! Helper lemmas about the provider loop and the handler. -/

theorem tryModels_skip (prompt m : String) (c : ProviderCall)
    (rest : List (String × ProviderCall)) (h : accepts prompt (m, c) = false) :
    tryModels prompt ((m, c) :: rest) =
      ((tryModels prompt rest).1, m :: (tryModels prompt rest).2) := by
  cases c with
  | raise => simp [tryModels]
  | respond g =>
    cases g with
    | none => simp [tryModels]
    | some s =>
      by_cases hs : s = ""
      · simp [tryModels, hs]
      · by_cases hl : (stripEcho prompt s).length < 100
        · simp [tryModels, hs, hl]
        · exfalso
          simp [accepts, hs, hl] at h

theorem tryModels_accept (prompt m s : String)
    (rest : List (String × ProviderCall))
    (h : accepts prompt (m, ProviderCall.respond (some s)) = true) :
    tryModels prompt ((m, ProviderCall.respond (some s)) :: rest) =
      (some (m, stripEcho prompt s), [m]) := by
  by_cases hs : s = ""
  · exfalso; simp [accepts, hs] at h
  · by_cases hl : (stripEcho prompt s).length < 100
    · exfalso; simp [accepts, hs, hl] at h
    · simp [tryModels, hs, hl]

theorem tryModels_allSkip (prompt : String) (l : List (String × ProviderCall))
    (h : ∀ p ∈ l, accepts prompt p = false) :
    tryModels prompt l = (none, l.map Prod.fst) := by
  induction l with
  | nil => rfl
  | cons q qs ih =>
    rcases q with ⟨m, c⟩
    rw [tryModels_skip prompt m c qs (h _ (List.mem_cons_self _ _)),
        ih (fun p hp => h p (List.mem_cons_of_mem _ hp))]
    simp

theorem tryModels_firstAccept (prompt id s : String)
    (pre rest : List (String × ProviderCall))
    (hpre : ∀ p ∈ pre, accepts prompt p = false)
    (hacc : accepts prompt (id, ProviderCall.respond (some s)) = true) :
    tryModels prompt (pre ++ (id, ProviderCall.respond (some s)) :: rest) =
      (some (id, stripEcho prompt s), pre.map Prod.fst ++ [id]) := by
  induction pre with
  | nil => simpa using tryModels_accept prompt id s rest hacc
  | cons q qs ih =>
    rcases q with ⟨m, c⟩
    rw [List.cons_append,
        tryModels_skip prompt m c _ (hpre _ (List.mem_cons_self _ _)),
        ih (fun p hp => hpre p (List.mem_cons_of_mem _ hp))]
    simp

theorem accepts_shape (prompt : String) (m : String) (c : ProviderCall)
    (h : accepts prompt (m, c) = true) :
    ∃ s, c = ProviderCall.respond (some s) ∧ ¬s = "" ∧
      ¬(stripEcho prompt s).length < 100 := by
  cases c with
  | raise => exact absurd h (by simp [accepts])
  | respond g =>
    cases g with
    | none => exact absurd h (by simp [accepts])
    | some s =>
      by_cases hs : s = ""
      · exact absurd h (by simp [accepts, hs])
      · by_cases hl : (stripEcho prompt s).length < 100
        · exact absurd h (by simp [accepts, hs, hl])
        · exact ⟨s, rfl, hs, hl⟩

theorem tryModels_called_sublist (prompt : String) (l : List (String × ProviderCall)) :
    (tryModels prompt l).2.Sublist (l.map Prod.fst) := by
  induction l with
  | nil => simp [tryModels]
  | cons q qs ih =>
    rcases q with ⟨m, c⟩
    by_cases h : accepts prompt (m, c) = true
    · rcases accepts_shape prompt m c h with ⟨s, rfl, hs, hl⟩
      rw [tryModels_accept prompt m s qs h]
      simp
    · rw [tryModels_skip prompt m c qs (by simpa using h)]
      exact List.Sublist.cons₂ m ih

theorem generatePlanWith_valid (body : ReqBody)
    (providers : List (String × ProviderCall)) (store : StoreBehavior)
    (h : validBody body = true) :
    generatePlanWith body providers store =
      generateCore (body.subject.getD "") (body.level.getD "") (body.duration.getD "")
        (body.goals.getD "") providers store := by
  unfold generatePlanWith
  rw [if_neg]
  intro hc
  unfold validBody at h
  rw [hc] at h
  simp at h

theorem generateCore_status (subject level duration goals : String)
    (providers : List (String × ProviderCall)) (store : StoreBehavior) :
    (generateCore subject level duration goals providers store).resp.status = 200 := by
  rcases htr : tryModels (buildPrompt subject level duration goals) providers with ⟨r, called⟩
  rcases r with _ | ⟨m, t⟩ <;> cases store <;> simp [generateCore, htr]

theorem generateCore_called (subject level duration goals : String)
    (providers : List (String × ProviderCall)) (store : StoreBehavior) :
    (generateCore subject level duration goals providers store).called =
      (tryModels (buildPrompt subject level duration goals) providers).2 := by
  rcases htr : tryModels (buildPrompt subject level duration goals) providers with ⟨r, called⟩
  rcases r with _ | ⟨m, t⟩ <;> cases store <;> simp [generateCore, htr]

/-! Claim theorems. -/

/-- Claim C6, counterexample: the claim states that the week count is the
first integer found in the duration string and that the default 4 applies
exactly when no integer is found, but on input "0 weeks" the first integer
found is 0 while the code produces 4, because `|| 4` also replaces a
parsed 0. -/
theorem durationClaimCounterexample :
    parseDurationWeeks "0 weeks" ≠ claimedDurationWeeks "0 weeks" ∧
    parseDurationWeeks "0 weeks" = 4 ∧ claimedDurationWeeks "0 weeks" = 0 := by
  refine ⟨?_, ?_, ?_⟩ <;> decide

/-- Claim C6, amended: the week count is the first integer found in the
duration string (first maximal run of digits) unless that integer is 0,
and it defaults to 4 exactly when no integer is found or the found integer
is 0; in particular "6 weeks" gives 6, "1 week" gives 1, and
"no number here" gives 4. -/
theorem durationParsePolicy :
    (∀ d : String, parseDurationWeeks d =
        if claimedDurationWeeks d = 0 then 4 else claimedDurationWeeks d) ∧
    parseDurationWeeks "6 weeks" = 6 ∧ parseDurationWeeks "1 week" = 1 ∧
    parseDurationWeeks "no number here" = 4 := by
  refine ⟨?_, by decide, by decide, by decide⟩
  intro d
  rcases h : firstDigitRun d.data with _ | ds
  · simp [parseDurationWeeks, claimedDurationWeeks, h]
  · by_cases hz : digitsToNat ds = 0 <;>
      simp [parseDurationWeeks, claimedDurationWeeks, jsOrInt, h, hz]

/-- Claim C10: a duration whose first digit run parses to 0 behaves exactly
as if no integer were present, because the `|| 4` default also applies to
a parsed 0. -/
theorem zeroDigitRunDefaults :
    (∀ (d : String) (ds : List Char), firstDigitRun d.data = some ds →
        digitsToNat ds = 0 → parseDurationWeeks d = 4) ∧
    parseDurationWeeks "0 weeks" = 4 := by
  refine ⟨?_, by decide⟩
  intro d ds h hz
  simp [parseDurationWeeks, h, jsOrInt, hz]

/-- Claim C10, witness: the duration "00 days" parses its digit run to 0
and the generator week count defaults to 4. -/
theorem zeroDigitRunDefaults_witness :
    firstDigitRun ("00 days").data = some ['0', '0'] ∧
    digitsToNat ['0', '0'] = 0 ∧ parseDurationWeeks "00 days" = 4 :=
  ⟨by decide, by decide, zeroDigitRunDefaults.1 "00 days" ['0', '0'] (by decide) (by decide)⟩

/-- Claim C7: when a provider output contains the prompt as a substring,
the accepted text is the output with that prompt occurrence removed and
trimmed; in particular, when the raw output is the prompt followed by a
suffix, the accepted text is the trimmed suffix, and a trimmed text has no
leading or trailing whitespace character. -/
theorem echoStrippingSpec :
    (∀ prompt suffixPart : String,
        stripEcho prompt (prompt ++ suffixPart) = jsTrim suffixPart) ∧
    (∀ s : String,
        (∀ c, (jsTrim s).data.head? = some c → isSpaceChar c = false) ∧
        (∀ c, (jsTrim s).data.getLast? = some c → isSpaceChar c = false)) ∧
    (∀ prompt s : String, containsSub s prompt = true →
        stripEcho prompt s = jsTrim (replaceFirst s prompt)) := by
  refine ⟨stripEcho_append_self, ?_, ?_⟩
  · intro s
    exact ⟨fun c h => trimList_head s.data c h, fun c h => trimList_getLast s.data c h⟩
  · intro prompt s h
    simp [stripEcho, h]

/-- Claim C7, witness: on the concrete output "abc xyz" containing the
prompt "abc", the accepted text is the trimmed remainder "xyz". -/
theorem echoStrippingSpec_witness :
    containsSub "abc xyz" "abc" = true ∧
    stripEcho "abc" "abc xyz" = jsTrim (replaceFirst "abc xyz" "abc") ∧
    jsTrim (replaceFirst "abc xyz" "abc") = "xyz" :=
  ⟨by decide, echoStrippingSpec.2.2 "abc" "abc xyz" (by decide), by decide⟩

/-- Claim C8: for every input the fallback plan starts with the literal
header naming subject and level, labels Phase 2 as weeks 3 through
`ceil(W * 0.7)` when `W > 2` and as week 2 otherwise, and labels Phase 3
as weeks `ceil(W * 0.7) + 1` through `W - 1` unconditionally, even when
that range is empty or inverted; in particular the Biology request's plan
contains the literal header. -/
theorem fallbackTemplateStructure :
    (∀ subject level duration goals : String,
      ∃ a b c : String,
        generateFallbackPlan subject level duration goals =
          ("Study Plan for " ++ subject ++ " (" ++ level ++ " Level)") ++ a ++
          ("Phase 2: Core Learning (Week " ++
            (if parseDurationWeeks duration > 2 then
              "3-" ++ toString (ceilSevenTenths (parseDurationWeeks duration))
            else "2") ++ ")") ++ b ++
          ("Phase 3: Advanced Application (Week " ++
            toString (ceilSevenTenths (parseDurationWeeks duration) + 1) ++ "-" ++
            toString (parseDurationWeeks duration - 1) ++ ")") ++ c) ∧
    containsSub (generateFallbackPlan "Biology" "Beginner" "4 weeks" "Pass exam")
      "Study Plan for Biology (Beginner Level)" = true := by
  constructor
  · intro subject level duration goals
    refine ⟨"\nDuration: " ++ duration ++ "\nGoals: " ++ goals ++
        "\n\n=== STUDY PLAN OVERVIEW ===\n\nPhase 1: Foundation (Week 1" ++
        (if parseDurationWeeks duration > 2 then "-2" else "") ++
        ")\n- Review fundamental concepts and terminology\n- Gather study materials and resources\n- Establish daily study routine (1-2 hours)\n- Complete basic exercises and assessments\n\n",
      "\n- Deep dive into main topics and concepts\n- Practice problem-solving techniques\n- Create summary notes and mind maps\n- Regular self-assessment and progress tracking\n\n",
      "\n- Explore complex topics and real-world applications\n- Work on challenging problems and case studies\n- Connect concepts across different areas\n- Prepare for practical implementation\n\nPhase 4: Review & Mastery (Final Week)\n- Comprehensive review of all materials\n- Practice tests and mock examinations\n- Identify and address knowledge gaps\n- Final preparation and confidence building\n\n=== DAILY STUDY STRUCTURE ===\n\nMorning Session (30-45 minutes):\n- Review previous day\x27s material\n- Preview new concepts for the day\n\nMain Study Session (60-90 minutes):\n- Focus on new topic learning\n- Complete practice exercises\n- Take detailed notes\n\nEvening Review (15-30 minutes):\n- Summarize key learnings\n- Plan next day\x27s study goals\n- Update progress tracker\n\n=== WEEKLY MILESTONES ===\n\nWeek 1: Master foundational concepts\nWeek 2: Complete core topic modules\n" ++
        (if parseDurationWeeks duration > 2 then "Week 3: Apply knowledge to practical scenarios\n" else "") ++
        (if parseDurationWeeks duration > 3 then "Week 4: Integrate advanced concepts\n" else "") ++
        "Final Week: Achieve mastery and meet stated goals\n\n=== STUDY TIPS ===\n\n- Use active learning techniques (summarizing, teaching others)\n- Take regular breaks using the Pomodoro technique\n- Create a distraction-free study environment\n- Join study groups or find accountability partners\n- Regularly assess progress and adjust plan as needed\n\nNote: This is a template plan generated when AI services are unavailable. For a more personalized and detailed study plan, please try again later when our AI service is restored.",
      ?_⟩
    apply strExt
    simp only [generateFallbackPlan, String.data_append, List.append_assoc]
  · decide

/-- Claim C4: a request body with any of the four fields missing or empty
gets HTTP 400 with an error field, and the handler starts no provider call
and attempts no store write. -/
theorem validationRejects :
    ∀ (body : ReqBody) (providers : List (String × ProviderCall)) (store : StoreBehavior),
      validBody body = false →
      (generatePlanWith body providers store).resp.status = 400 ∧
      (generatePlanWith body providers store).resp.error =
        some "Missing required fields: subject, level, duration, and goals are all required" ∧
      (generatePlanWith body providers store).called = [] ∧
      (generatePlanWith body providers store).writes = [] := by
  intro body providers store h
  have hc : (isFalsy body.subject || isFalsy body.level || isFalsy body.duration ||
      isFalsy body.goals) = true := by
    cases hb : (isFalsy body.subject || isFalsy body.level || isFalsy body.duration ||
        isFalsy body.goals)
    · exfalso
      unfold validBody at h
      rw [hb] at h
      simp at h
    · rfl
  refine ⟨?_, ?_, ?_, ?_⟩ <;> simp [generatePlanWith, hc]

/-- Claim C4, witness: the concrete body with a missing subject is
rejected with a 400, an empty call trace and an empty write trace. -/
theorem validationRejects_witness :
    validBody bodyMissingEx = false ∧
    (generatePlanWith bodyMissingEx [] (StoreBehavior.ok "p0")).resp.status = 400 ∧
    (generatePlanWith bodyMissingEx [] (StoreBehavior.ok "p0")).called = [] ∧
    (generatePlanWith bodyMissingEx [] (StoreBehavior.ok "p0")).writes = [] :=
  ⟨by decide,
   (validationRejects bodyMissingEx [] (StoreBehavior.ok "p0") (by decide)).1,
   (validationRejects bodyMissingEx [] (StoreBehavior.ok "p0") (by decide)).2.2.1,
   (validationRejects bodyMissingEx [] (StoreBehavior.ok "p0") (by decide)).2.2.2⟩

/-- Claim C3: for every valid body the handler answers 200 whatever the
providers and the store do (so failed providers, even all of them, never
surface as a non-200 response), and a raised provider call is absorbed and
the loop continues with the next provider. -/
theorem providerFailuresAbsorbed :
    (∀ (body : ReqBody) (providers : List (String × ProviderCall)) (store : StoreBehavior),
        validBody body = true → (generatePlanWith body providers store).resp.status = 200) ∧
    (∀ (prompt m : String) (rest : List (String × ProviderCall)),
        tryModels prompt ((m, ProviderCall.raise) :: rest) =
          ((tryModels prompt rest).1, m :: (tryModels prompt rest).2)) := by
  constructor
  · intro body providers store h
    rw [generatePlanWith_valid body providers store h]
    exact generateCore_status _ _ _ _ _ _
  · intro prompt m rest
    exact tryModels_skip prompt m ProviderCall.raise rest rfl

/-- Claim C3, witness: with every provider raising and the store healthy,
the concrete valid request still gets status 200. -/
theorem providerFailuresAbsorbed_witness :
    validBody bodyEx = true ∧
    (generatePlanWith bodyEx (models.map fun m => (m, envFailEx m))
        (StoreBehavior.ok "p1")).resp.status = 200 :=
  ⟨by decide,
   providerFailuresAbsorbed.1 bodyEx (models.map fun m => (m, envFailEx m))
     (StoreBehavior.ok "p1") (by decide)⟩

/-- Claim C1: for every valid request and every provider ordering, if the
providers before position k are all unacceptable and the provider at
position k returns a generated text whose echo-stripped form has length at
least 100, then the response reports that provider and its stripped text
with isAiGenerated true, and the call trace is exactly the identifiers up
to and including position k — no later provider is invoked; moreover the
call trace of the deployed handler never repeats a provider, so each
provider is attempted at most once per request. -/
theorem firstAcceptedProviderWins :
    (∀ (subject level duration goals id s : String)
        (pre rest : List (String × ProviderCall)) (store : StoreBehavior)
        (out : GenOutcome),
        subject ≠ "" → level ≠ "" → duration ≠ "" → goals ≠ "" →
        (∀ p ∈ pre, accepts (buildPrompt subject level duration goals) p = false) →
        accepts (buildPrompt subject level duration goals)
          (id, ProviderCall.respond (some s)) = true →
        out = generatePlanWith ⟨some subject, some level, some duration, some goals⟩
          (pre ++ (id, ProviderCall.respond (some s)) :: rest) store →
        out.resp.modelUsed = some id ∧ out.resp.isAiGenerated = some true ∧
        out.resp.plan = some (stripEcho (buildPrompt subject level duration goals) s) ∧
        out.called = pre.map Prod.fst ++ [id]) ∧
    (∀ (body : ReqBody) (env : String → ProviderCall) (store : StoreBehavior),
        (generatePlan body env store).called.Nodup) := by
  constructor
  · intro subject level duration goals id s pre rest store out hs hl hd hg hpre hacc hout
    subst hout
    have hv : validBody ⟨some subject, some level, some duration, some goals⟩ = true := by
      simp [validBody, isFalsy, hs, hl, hd, hg]
    rw [generatePlanWith_valid _ _ _ hv]
    have htr := tryModels_firstAccept (buildPrompt subject level duration goals) id s
      pre rest hpre hacc
    cases store <;> refine ⟨?_, ?_, ?_, ?_⟩ <;> simp [generateCore, htr]
  · intro body env store
    unfold generatePlan
    by_cases hv : validBody body = true
    · rw [generatePlanWith_valid _ _ _ hv, generateCore_called]
      have hsub := tryModels_called_sublist
        (buildPrompt (body.subject.getD "") (body.level.getD "") (body.duration.getD "")
          (body.goals.getD "")) (models.map fun m => (m, env m))
      have hsub2 : (tryModels
          (buildPrompt (body.subject.getD "") (body.level.getD "") (body.duration.getD "")
            (body.goals.getD "")) (models.map fun m => (m, env m))).2.Sublist models := by
        simpa using hsub
      exact List.Sublist.nodup hsub2 (by decide)
    · have hc : (isFalsy body.subject || isFalsy body.level || isFalsy body.duration ||
          isFalsy body.goals) = true := by
        cases hb : (isFalsy body.subject || isFalsy body.level || isFalsy body.duration ||
            isFalsy body.goals)
        · exfalso
          apply hv
          unfold validBody
          rw [hb]
          rfl
        · rfl
      simp [generatePlanWith, hc]

/-- Claim C1, witness: with the first provider raising and the second
returning a long text, the response reports the second provider and the
third is never invoked. -/
theorem firstAcceptedProviderWins_witness :
    (∀ p ∈ [("mistralai/Mistral-7B-Instruct-v0.3", ProviderCall.raise)],
        accepts (buildPrompt "Math" "Beginner" "6 weeks" "Practice algebra") p = false) ∧
    accepts (buildPrompt "Math" "Beginner" "6 weeks" "Practice algebra")
      ("microsoft/DialoGPT-medium", ProviderCall.respond (some longTextEx)) = true ∧
    ((generatePlanWith ⟨some "Math", some "Beginner", some "6 weeks", some "Practice algebra"⟩
        ([("mistralai/Mistral-7B-Instruct-v0.3", ProviderCall.raise)] ++
          ("microsoft/DialoGPT-medium", ProviderCall.respond (some longTextEx)) ::
            [("google/flan-t5-large", ProviderCall.respond (some longTextEx))])
        (StoreBehavior.ok "p2")).resp.modelUsed = some "microsoft/DialoGPT-medium" ∧
     (generatePlanWith ⟨some "Math", some "Beginner", some "6 weeks", some "Practice algebra"⟩
        ([("mistralai/Mistral-7B-Instruct-v0.3", ProviderCall.raise)] ++
          ("microsoft/DialoGPT-medium", ProviderCall.respond (some longTextEx)) ::
            [("google/flan-t5-large", ProviderCall.respond (some longTextEx))])
        (StoreBehavior.ok "p2")).resp.isAiGenerated = some true ∧
     (generatePlanWith ⟨some "Math", some "Beginner", some "6 weeks", some "Practice algebra"⟩
        ([("mistralai/Mistral-7B-Instruct-v0.3", ProviderCall.raise)] ++
          ("microsoft/DialoGPT-medium", ProviderCall.respond (some longTextEx)) ::
            [("google/flan-t5-large", ProviderCall.respond (some longTextEx))])
        (StoreBehavior.ok "p2")).resp.plan =
       some (stripEcho (buildPrompt "Math" "Beginner" "6 weeks" "Practice algebra") longTextEx) ∧
     (generatePlanWith ⟨some "Math", some "Beginner", some "6 weeks", some "Practice algebra"⟩
        ([("mistralai/Mistral-7B-Instruct-v0.3", ProviderCall.raise)] ++
          ("microsoft/DialoGPT-medium", ProviderCall.respond (some longTextEx)) ::
            [("google/flan-t5-large", ProviderCall.respond (some longTextEx))])
        (StoreBehavior.ok "p2")).called =
       [("mistralai/Mistral-7B-Instruct-v0.3", ProviderCall.raise)].map Prod.fst ++
         ["microsoft/DialoGPT-medium"]) :=
  ⟨by decide, by decide,
   firstAcceptedProviderWins.1 "Math" "Beginner" "6 weeks" "Practice algebra"
     "microsoft/DialoGPT-medium" longTextEx
     [("mistralai/Mistral-7B-Instruct-v0.3", ProviderCall.raise)]
     [("google/flan-t5-large", ProviderCall.respond (some longTextEx))]
     (StoreBehavior.ok "p2") _
     (by decide) (by decide) (by decide) (by decide) (by decide) (by decide) rfl⟩

/-- Claim C2: for every valid request, if every provider in the deployed
priority list raises, returns no truthy generated text, or yields a
stripped text shorter than 100 characters, then the response reports
isAiGenerated false, modelUsed "fallback", and a plan byte-identical to
the template fallback generator applied to the four request fields. -/
theorem fallbackWhenAllFail :
    ∀ (subject level duration goals : String) (env : String → ProviderCall)
      (store : StoreBehavior) (out : GenOutcome),
      subject ≠ "" → level ≠ "" → duration ≠ "" → goals ≠ "" →
      (∀ m ∈ models,
        accepts (buildPrompt subject level duration goals) (m, env m) = false) →
      out = generatePlan ⟨some subject, some level, some duration, some goals⟩ env store →
      out.resp.isAiGenerated = some false ∧ out.resp.modelUsed = some "fallback" ∧
      out.resp.plan = some (generateFallbackPlan subject level duration goals) := by
  intro subject level duration goals env store out hs hl hd hg hall hout
  subst hout
  have hv : validBody ⟨some subject, some level, some duration, some goals⟩ = true := by
    simp [validBody, isFalsy, hs, hl, hd, hg]
  unfold generatePlan
  rw [generatePlanWith_valid _ _ _ hv]
  have htr : tryModels (buildPrompt subject level duration goals)
      (models.map fun m => (m, env m)) =
      (none, (models.map fun m => (m, env m)).map Prod.fst) := by
    apply tryModels_allSkip
    intro p hp
    rcases List.mem_map.mp hp with ⟨m, hm, rfl⟩
    exact hall m hm
  cases store <;> refine ⟨?_, ?_, ?_⟩ <;> simp [generateCore, htr]

/-- Claim C2, witness: with every provider raising, the concrete request
gets the fallback response with the template plan. -/
theorem fallbackWhenAllFail_witness :
    (∀ m ∈ models,
        accepts (buildPrompt "Math" "Beginner" "6 weeks" "Practice algebra")
          (m, envFailEx m) = false) ∧
    ((generatePlan ⟨some "Math", some "Beginner", some "6 weeks", some "Practice algebra"⟩
        envFailEx (StoreBehavior.ok "p3")).resp.isAiGenerated = some false ∧
     (generatePlan ⟨some "Math", some "Beginner", some "6 weeks", some "Practice algebra"⟩
        envFailEx (StoreBehavior.ok "p3")).resp.modelUsed = some "fallback" ∧
     (generatePlan ⟨some "Math", some "Beginner", some "6 weeks", some "Practice algebra"⟩
        envFailEx (StoreBehavior.ok "p3")).resp.plan =
       some (generateFallbackPlan "Math" "Beginner" "6 weeks" "Practice algebra")) :=
  ⟨by decide,
   fallbackWhenAllFail "Math" "Beginner" "6 weeks" "Practice algebra" envFailEx
     (StoreBehavior.ok "p3") _ (by decide) (by decide) (by decide) (by decide) (by decide) rfl⟩

/-- Claim C5: for every valid request, when the store write fails the
response is still 200 with success true, a present plan text, a non-empty
warning, and no planId. -/
theorem storeFailureWarns :
    ∀ (body : ReqBody) (providers : List (String × ProviderCall)) (out : GenOutcome),
      validBody body = true →
      out = generatePlanWith body providers StoreBehavior.err →
      out.resp.status = 200 ∧ out.resp.success = some true ∧
      out.resp.plan.isSome = true ∧ out.resp.planId = none ∧
      ∃ w, out.resp.warning = some w ∧ w ≠ "" := by
  intro body providers out hv hout
  subst hout
  rw [generatePlanWith_valid _ _ _ hv]
  rcases htr : tryModels (buildPrompt (body.subject.getD "") (body.level.getD "")
      (body.duration.getD "") (body.goals.getD "")) providers with ⟨r, called⟩
  rcases r with _ | ⟨m, t⟩
  · refine ⟨by simp [generateCore, htr], by simp [generateCore, htr],
      by simp [generateCore, htr], by simp [generateCore, htr],
      ⟨"Plan not saved to database due to connection issues",
        by simp [generateCore, htr], by decide⟩⟩
  · refine ⟨by simp [generateCore, htr], by simp [generateCore, htr],
      by simp [generateCore, htr], by simp [generateCore, htr],
      ⟨"Plan generated successfully but not saved to database",
        by simp [generateCore, htr], by decide⟩⟩

/-- Claim C5, witness: with all providers failing and the store erroring,
the concrete valid request still gets a 200 success response with a plan,
a warning and no planId. -/
theorem storeFailureWarns_witness :
    validBody bodyEx = true ∧
    ((generatePlanWith bodyEx (models.map fun m => (m, envFailEx m))
        StoreBehavior.err).resp.status = 200 ∧
     (generatePlanWith bodyEx (models.map fun m => (m, envFailEx m))
        StoreBehavior.err).resp.success = some true ∧
     (generatePlanWith bodyEx (models.map fun m => (m, envFailEx m))
        StoreBehavior.err).resp.plan.isSome = true ∧
     (generatePlanWith bodyEx (models.map fun m => (m, envFailEx m))
        StoreBehavior.err).resp.planId = none ∧
     ∃ w, (generatePlanWith bodyEx (models.map fun m => (m, envFailEx m))
        StoreBehavior.err).resp.warning = some w ∧ w ≠ "") :=
  ⟨by decide,
   storeFailureWarns bodyEx (models.map fun m => (m, envFailEx m)) _ (by decide) rfl⟩

/-- Claim C9: every handler run attempts at most one store write, and on a
success response every attempted write carries exactly the finally chosen
plan text, provider identifier and isAiGenerated flag of the response, so
rejected or failed provider attempts are never persisted individually. -/
theorem singleWriteInvariant :
    ∀ (body : ReqBody) (providers : List (String × ProviderCall)) (store : StoreBehavior),
      (generatePlanWith body providers store).writes.length ≤ 1 ∧
      ((generatePlanWith body providers store).resp.success = some true →
        ∀ w ∈ (generatePlanWith body providers store).writes,
          some w.plan = (generatePlanWith body providers store).resp.plan ∧
          some w.modelUsed = (generatePlanWith body providers store).resp.modelUsed ∧
          some w.isAiGenerated = (generatePlanWith body providers store).resp.isAiGenerated) := by
  intro body providers store
  by_cases hv : validBody body = true
  · rw [generatePlanWith_valid _ _ _ hv]
    rcases htr : tryModels (buildPrompt (body.subject.getD "") (body.level.getD "")
        (body.duration.getD "") (body.goals.getD "")) providers with ⟨r, called⟩
    rcases r with _ | ⟨m, t⟩ <;> cases store <;>
      exact ⟨by simp [generateCore, htr], by simp [generateCore, htr]⟩
  · have hc : (isFalsy body.subject || isFalsy body.level || isFalsy body.duration ||
        isFalsy body.goals) = true := by
      cases hb : (isFalsy body.subject || isFalsy body.level || isFalsy body.duration ||
          isFalsy body.goals)
      · exfalso
        apply hv
        unfold validBody
        rw [hb]
        rfl
      · rfl
    exact ⟨by simp [generatePlanWith, hc], by simp [generatePlanWith, hc]⟩

/-- Claim C9, witness: on a concrete successful run through an accepting
provider, the single write attempt carries the response's own plan text,
provider and flag. -/
theorem singleWriteInvariant_witness :
    (generatePlanWith bodyEx [("microsoft/DialoGPT-medium",
        ProviderCall.respond (some longTextEx))] (StoreBehavior.ok "p4")).resp.success =
      some true ∧
    (∀ w ∈ (generatePlanWith bodyEx [("microsoft/DialoGPT-medium",
        ProviderCall.respond (some longTextEx))] (StoreBehavior.ok "p4")).writes,
      some w.plan = (generatePlanWith bodyEx [("microsoft/DialoGPT-medium",
        ProviderCall.respond (some longTextEx))] (StoreBehavior.ok "p4")).resp.plan ∧
      some w.modelUsed = (generatePlanWith bodyEx [("microsoft/DialoGPT-medium",
        ProviderCall.respond (some longTextEx))] (StoreBehavior.ok "p4")).resp.modelUsed ∧
      some w.isAiGenerated = (generatePlanWith bodyEx [("microsoft/DialoGPT-medium",
        ProviderCall.respond (some longTextEx))] (StoreBehavior.ok "p4")).resp.isAiGenerated) :=
  ⟨by decide,
   (singleWriteInvariant bodyEx [("microsoft/DialoGPT-medium",
      ProviderCall.respond (some longTextEx))] (StoreBehavior.ok "p4")).2 (by decide)⟩

end StudyPlanGen
